import Mathlib

/-!
Verification of the B2B wholesale pricing extension
(`extensions/b2b-pricing/src/run.rs`) against its natural-language
specification.

The Rust source defines `Configuration` and `PricingRule` (decoded by a
serde derive with `rename_all = "camelCase"`) and a `run` entry point that
currently returns the constant "no discount" result.  `f64` monetary values
are embedded as `ℚ`; the claims under study do not concern floating-point
rounding.  Components the spec describes but the repository does not yet
implement (matcher, conflict resolver, discount calculator, the generated
input schema) are modelled from the spec and marked as such.
-/

namespace B2B

/-- Rust struct `PricingRule` from `run.rs`: one merchant-configured pricing rule.
Field names keep the Rust snake_case; `discount_value : f64` is embedded
as `ℚ`, `priority : i32` as `Int`. -/
structure PricingRule where
  id : String
  customer_tags : List String
  product_ids : List String
  collection_ids : List String
  discount_type : String
  discount_value : ℚ
  priority : Int
  is_active : Bool
  deriving DecidableEq

/-- Rust struct `Configuration` from `run.rs`: the metafield configuration blob. -/
structure Configuration where
  pricing_rules : List PricingRule
  deriving DecidableEq

/-- JSON values, the wire format the serde derive decodes from. -/
inductive Json where
  | null : Json
  | bool : Bool → Json
  | num : ℚ → Json
  | str : String → Json
  | arr : List Json → Json
  | obj : List (String × Json) → Json

/-- First binding of a key in the field list of a JSON object. -/
def lookupField : List (String × Json) → String → Option Json
  | [], _ => none
  | (k, v) :: rest, key => if k = key then some v else lookupField rest key

/-- serde: a struct field is required; a missing key is a decode error. -/
def getField (fs : List (String × Json)) (k : String) : Except String Json :=
  match lookupField fs k with
  | some v => Except.ok v
  | none => Except.error ("missing field " ++ k)

/-- serde `String` decoding: only a JSON string is accepted. -/
def asString : Json → Except String String
  | Json.str s => Except.ok s
  | _ => Except.error "expected string"

/-- serde `bool` decoding. -/
def asBool : Json → Except String Bool
  | Json.bool b => Except.ok b
  | _ => Except.error "expected bool"

/-- serde `f64` decoding: any JSON number is accepted (embedded as `ℚ`). -/
def asNum : Json → Except String ℚ
  | Json.num q => Except.ok q
  | _ => Except.error "expected number"

/-- serde `i32` decoding: an integral JSON number within `i32` range. -/
def asI32 : Json → Except String Int
  | Json.num q =>
      if q.den = 1 ∧ -(2 ^ 31) ≤ q.num ∧ q.num < 2 ^ 31 then Except.ok q.num
      else Except.error "invalid i32"
  | _ => Except.error "expected i32"

/-- serde `Vec<String>` decoding: a JSON array of strings. -/
def decodeStrings : List Json → Except String (List String)
  | [] => Except.ok []
  | j :: rest =>
      (asString j).bind fun s =>
      (decodeStrings rest).bind fun ss =>
      Except.ok (s :: ss)

/-- Required `String` field. -/
def getStr (fs : List (String × Json)) (k : String) : Except String String :=
  (getField fs k).bind asString

/-- Required `Vec<String>` field. -/
def getStrList (fs : List (String × Json)) (k : String) : Except String (List String) :=
  (getField fs k).bind fun j =>
    match j with
    | Json.arr items => decodeStrings items
    | _ => Except.error "expected array"

/-- Required `f64` field. -/
def getNum (fs : List (String × Json)) (k : String) : Except String ℚ :=
  (getField fs k).bind asNum

/-- Required `i32` field. -/
def getI32 (fs : List (String × Json)) (k : String) : Except String Int :=
  (getField fs k).bind asI32

/-- Required `bool` field. -/
def getBool (fs : List (String × Json)) (k : String) : Except String Bool :=
  (getField fs k).bind asBool

/-- The serde `Deserialize` derive for `PricingRule` with
`rename_all = "camelCase"`: every field is required (the derive carries no
`default` attribute), keys are the camelCase renames of the Rust fields,
values are type-checked, and no domain validation is performed on
`discountType` or `discountValue`. -/
def PricingRule.deserialize (j : Json) : Except String PricingRule :=
  match j with
  | Json.obj fs =>
      (getStr fs "id").bind fun i =>
      (getStrList fs "customerTags").bind fun tags =>
      (getStrList fs "productIds").bind fun prods =>
      (getStrList fs "collectionIds").bind fun colls =>
      (getStr fs "discountType").bind fun dt =>
      (getNum fs "discountValue").bind fun dv =>
      (getI32 fs "priority").bind fun pr =>
      (getBool fs "isActive").bind fun act =>
      Except.ok
        { id := i, customer_tags := tags, product_ids := prods,
          collection_ids := colls, discount_type := dt, discount_value := dv,
          priority := pr, is_active := act }
  | _ => Except.error "expected object"

/-- serde `Vec<PricingRule>` decoding. -/
def decodeRules : List Json → Except String (List PricingRule)
  | [] => Except.ok []
  | j :: rest =>
      (PricingRule.deserialize j).bind fun r =>
      (decodeRules rest).bind fun rs =>
      Except.ok (r :: rs)

/-- The serde `Deserialize` derive for `Configuration`: the single required
field `pricingRules` holds the rule array. -/
def Configuration.deserialize (j : Json) : Except String Configuration :=
  match j with
  | Json.obj fs =>
      (getField fs "pricingRules").bind fun pj =>
      (match pj with
       | Json.arr items => decodeRules items
       | _ => Except.error "expected array").bind fun rules =>
      Except.ok { pricing_rules := rules }
  | _ => Except.error "expected object"

/-- Modelled from the spec: the customer record of the buyer (the generated
GraphQL input schema is not in the repository); it carries the tag set. -/
structure Customer where
  tags : List String
  deriving DecidableEq

/-- Modelled from the spec: `buyerIdentity` with a possibly-null customer. -/
structure BuyerIdentity where
  customer : Option Customer
  deriving DecidableEq

/-- Modelled from the spec: merchandise reference of a cart line — the
product identifier and the collections the product belongs to. -/
structure Merchandise where
  product_id : String
  collection_ids : List String
  deriving DecidableEq

/-- Modelled from the spec: one cart line — identifier, quantity
(an integer on the wire) and merchandise reference. -/
structure CartLine where
  id : String
  quantity : Int
  merchandise : Merchandise
  deriving DecidableEq

/-- Modelled from the spec: the cart payload. -/
structure Cart where
  buyerIdentity : BuyerIdentity
  lines : List CartLine
  deriving DecidableEq

/-- Modelled from the spec: the discount node metafield; `jsonValue` holds
the decoded configuration when present. -/
structure Metafield where
  jsonValue : Option Configuration
  deriving DecidableEq

/-- Modelled from the spec: the discount node with a possibly-null
metafield. -/
structure DiscountNode where
  metafield : Option Metafield
  deriving DecidableEq

/-- Modelled from the spec: the evaluation input delivered by the host
(`schema::run::Input` in the Rust source, generated code not in the
repository). -/
structure Input where
  cart : Cart
  discountNode : DiscountNode
  deriving DecidableEq

/-- Rust enum `schema::DiscountApplicationStrategy`: the combination strategy tag. -/
inductive DiscountApplicationStrategy where
  | First : DiscountApplicationStrategy
  | All : DiscountApplicationStrategy
  deriving DecidableEq

/-- Modelled from the spec: one per-line discount entry of the output —
line reference, discount type and computed amount. -/
structure DiscountEntry where
  line_id : String
  discount_type : String
  amount : ℚ
  deriving DecidableEq

/-- Rust struct `schema::FunctionRunResult`: the discount list and
the combination strategy. -/
structure FunctionRunResult where
  discounts : List DiscountEntry
  discount_application_strategy : DiscountApplicationStrategy
  deriving DecidableEq

/-- Rust function `run` from `run.rs`: the function entry point.  The body builds the
`no_discount` result — empty discount list, strategy `First` — and returns
it as `Ok`, ignoring the input entirely. -/
def run (_input : Input) : Except String FunctionRunResult :=
  let no_discount : FunctionRunResult :=
    { discounts := [],
      discount_application_strategy := DiscountApplicationStrategy.First }
  Except.ok no_discount

/-- Modelled from the spec: the customer-context argument of the Matcher — the
tag set of the buyer. -/
structure CustomerContext where
  tags : List String
  deriving DecidableEq

/-- Modelled from the spec: the Matcher (spec section 4.2), not implemented
in the repository.  Step 1: an inactive rule never matches.  Steps 2-4: the
customer-tag, product and collection axes each pass when their restriction
set is empty or a match is found.  Step 5: all three axes must pass. -/
def ruleMatches (rule : PricingRule) (ctx : CustomerContext) (line : CartLine) : Bool :=
  rule.is_active &&
  (decide (rule.customer_tags = []) ||
    rule.customer_tags.any fun t => decide (t ∈ ctx.tags)) &&
  (decide (rule.product_ids = []) ||
    rule.product_ids.any fun p => decide (p = line.merchandise.product_id)) &&
  (decide (rule.collection_ids = []) ||
    rule.collection_ids.any fun c => decide (c ∈ line.merchandise.collection_ids))

/-- Declarative reading of the customer-tag axis: empty restriction set, or
a tag in common with the customer. -/
def tagAxisPasses (rule : PricingRule) (ctx : CustomerContext) : Prop :=
  rule.customer_tags = [] ∨ ∃ t, t ∈ rule.customer_tags ∧ t ∈ ctx.tags

/-- Declarative reading of the product axis: empty restriction set, or the
product of the line is a member. -/
def productAxisPasses (rule : PricingRule) (line : CartLine) : Prop :=
  rule.product_ids = [] ∨ line.merchandise.product_id ∈ rule.product_ids

/-- Declarative reading of the collection axis: empty restriction set, or a
collection in common with the membership set of the line. -/
def collectionAxisPasses (rule : PricingRule) (line : CartLine) : Prop :=
  rule.collection_ids = [] ∨
    ∃ c, c ∈ rule.collection_ids ∧ c ∈ line.merchandise.collection_ids

/-- Modelled from the spec: the precedence order of the Conflict Resolver
(spec section 4.3) — priority ascending, ties broken by rule id. -/
def ruleLE (a b : PricingRule) : Bool :=
  if a.priority < b.priority then true
  else if b.priority < a.priority then false
  else decide (a.id ≤ b.id)

/-- Insertion step of the precedence sort. -/
def insertRule (r : PricingRule) : List PricingRule → List PricingRule
  | [] => [r]
  | x :: xs => if ruleLE r x then r :: x :: xs else x :: insertRule r xs

/-- Modelled from the spec: the precedence sort of matched rules. -/
def sortRules : List PricingRule → List PricingRule
  | [] => []
  | x :: xs => insertRule x (sortRules xs)

/-- Modelled from the spec: the Conflict Resolver under strategy `First`
(spec section 4.3), not implemented in the repository — collect the rules
matching the line, sort by precedence, keep the single highest-precedence
rule. -/
def effectiveRules (rules : List PricingRule) (ctx : CustomerContext)
    (line : CartLine) : List PricingRule :=
  (sortRules (rules.filter fun r => ruleMatches r ctx line)).take 1

/-- Error taxonomy of the Discount Calculator (spec section 7). -/
inductive CalcError where
  | calculationError : CalcError
  | unknownDiscountType : CalcError
  deriving DecidableEq

/-- Modelled from the spec: the Discount Calculator (spec section 4.4), not
implemented in the repository.  Fails with `CalculationError` on a negative
unit price or quantity; Percentage computes
`unitPrice * quantity * (discountValue / 100)` clamped into
`[0, unitPrice * quantity]`; Fixed computes
`min (discountValue * quantity) (unitPrice * quantity)`. -/
def computeAmount (rule : PricingRule) (line : CartLine) (unitPrice : ℚ) :
    Except CalcError ℚ :=
  if unitPrice < 0 ∨ line.quantity < 0 then
    Except.error CalcError.calculationError
  else
    let q : ℚ := (line.quantity : ℚ)
    let total : ℚ := unitPrice * q
    if rule.discount_type = "percentage" then
      let raw : ℚ := total * (rule.discount_value / 100)
      Except.ok (if raw < 0 then 0 else if total < raw then total else raw)
    else if rule.discount_type = "fixed" then
      Except.ok (min (rule.discount_value * q) total)
    else Except.error CalcError.unknownDiscountType

/-- The "no discount" result the stub always returns. -/
def noDiscountResult : FunctionRunResult :=
  { discounts := [],
    discount_application_strategy := DiscountApplicationStrategy.First }

/-- The calibration rule of the `test_wholesale_discount_applied` fixture:
active, tag-restricted to `"wholesale"`, unrestricted on the product and
collection axes, percentage 10, priority 1. -/
def calibrationRule : PricingRule :=
  { id := "wholesale-rule", customer_tags := ["wholesale"], product_ids := [],
    collection_ids := [], discount_type := "percentage",
    discount_value := 10, priority := 1, is_active := true }

/-- The calibration cart line: quantity 1 of an unrestricted product. -/
def calibrationLine : CartLine :=
  { id := "gid://shopify/CartLine/1", quantity := 1,
    merchandise := { product_id := "gid://shopify/Product/1",
                     collection_ids := [] } }

/-- The calibration configuration: exactly the calibration rule. -/
def calibrationConfig : Configuration :=
  { pricing_rules := [calibrationRule] }

/-- The calibration input: a `"wholesale"`-tagged customer, one cart line,
and the calibration configuration in the metafield. -/
def calibrationInput : Input :=
  { cart := { buyerIdentity := { customer := some { tags := ["wholesale"] } },
              lines := [calibrationLine] },
    discountNode := { metafield := some { jsonValue := some calibrationConfig } } }

/-- Input of the `test_no_metafield_returns_no_discount` fixture: null
metafield, untagged customer, empty cart. -/
def nullMetafieldInput : Input :=
  { cart := { buyerIdentity := { customer := some { tags := [] } },
              lines := [] },
    discountNode := { metafield := none } }

/-- A line of quantity 2, used for the percentage calibration point. -/
def qtyTwoLine : CartLine :=
  { id := "line-2", quantity := 2,
    merchandise := { product_id := "p-1", collection_ids := [] } }

/-- A line of quantity 1, used for the fixed-clamp calibration point. -/
def qtyOneLine : CartLine :=
  { id := "line-1", quantity := 1,
    merchandise := { product_id := "p-1", collection_ids := [] } }

/-- A fixed-type rule of value 50, for the fixed-clamp calibration point. -/
def fixedRule50 : PricingRule :=
  { id := "fixed-rule", customer_tags := [], product_ids := [],
    collection_ids := [], discount_type := "fixed", discount_value := 50,
    priority := 1, is_active := true }

/-- An unrestricted active rule of priority 1. -/
def priorityOneRule : PricingRule :=
  { id := "a-rule", customer_tags := [], product_ids := [],
    collection_ids := [], discount_type := "percentage",
    discount_value := 5, priority := 1, is_active := true }

/-- An unrestricted active rule of priority 2. -/
def priorityTwoRule : PricingRule :=
  { id := "b-rule", customer_tags := [], product_ids := [],
    collection_ids := [], discount_type := "fixed", discount_value := 3,
    priority := 2, is_active := true }

/-- Serialized rule object with every required camelCase key present, the
discount type and value left as parameters. -/
def ruleFieldsWith (s : String) (v : ℚ) : List (String × Json) :=
  [("id", Json.str "r1"),
   ("customerTags", Json.arr []),
   ("productIds", Json.arr []),
   ("collectionIds", Json.arr []),
   ("discountType", Json.str s),
   ("discountValue", Json.num v),
   ("priority", Json.num 1),
   ("isActive", Json.bool true)]

/-- Serialized configuration holding one rule built by `ruleFieldsWith`. -/
def cfgJsonWith (s : String) (v : ℚ) : Json :=
  Json.obj [("pricingRules", Json.arr [Json.obj (ruleFieldsWith s v)])]

/-- The rule `ruleFieldsWith` decodes to. -/
def ruleValueWith (s : String) (v : ℚ) : PricingRule :=
  { id := "r1", customer_tags := [], product_ids := [], collection_ids := [],
    discount_type := s, discount_value := v, priority := 1,
    is_active := true }

/-- Serialized rule object with every required key except `isActive`. -/
def ruleFieldsNoActive : List (String × Json) :=
  [("id", Json.str "r1"),
   ("customerTags", Json.arr []),
   ("productIds", Json.arr []),
   ("collectionIds", Json.arr []),
   ("discountType", Json.str "percentage"),
   ("discountValue", Json.num 10),
   ("priority", Json.num 1)]

/-- C2: for every input, `run` returns successfully with an empty
discounts list and strategy `First`; the output is a constant, independent
of every field of the input. -/
theorem c2_run_constant :
    (∀ i : Input, run i =
      Except.ok { discounts := [],
                  discount_application_strategy := DiscountApplicationStrategy.First }) ∧
    (∀ i j : Input, run i = run j) :=
  ⟨fun _ => rfl, fun _ _ => rfl⟩

/-- C10: the evaluation is deterministic — two evaluations of `run` on the
same input produce identical outputs. -/
theorem c10_run_deterministic :
    ∀ i : Input, run i = run i :=
  fun _ => rfl

/-- C3: whenever the metafield is null, the `jsonValue` is absent, or the
configuration carries an empty `pricingRules` list, the evaluation returns
an empty discount list with strategy `First`. -/
theorem c3_empty_config_no_discount (i : Input)
    (_h : i.discountNode.metafield = none ∨
        (∃ m, i.discountNode.metafield = some m ∧ m.jsonValue = none) ∨
        (∃ m c, i.discountNode.metafield = some m ∧ m.jsonValue = some c ∧
          c.pricing_rules = [])) :
    run i = Except.ok { discounts := [],
                        discount_application_strategy := DiscountApplicationStrategy.First } :=
  rfl

/-- Witness for C3 at the null-metafield fixture input. -/
theorem c3_witness :
    nullMetafieldInput.discountNode.metafield = none ∧
    run nullMetafieldInput =
      Except.ok
        { discounts := [],
          discount_application_strategy := DiscountApplicationStrategy.First } :=
  ⟨rfl, c3_empty_config_no_discount nullMetafieldInput (Or.inl rfl)⟩

/-- C1: evaluating the stub `run` at the calibration input (wholesale
customer, one matching percentage-10 rule, one line of quantity 1) returns
the empty discount list with strategy `First` — zero entries, not the one
entry the calibration fixture expects. -/
theorem c1_stub_on_calibration_input :
    run calibrationInput =
      Except.ok
        { discounts := [],
          discount_application_strategy := DiscountApplicationStrategy.First } ∧
    ((run calibrationInput).toOption.map fun r => r.discounts.length) = some 0 :=
  ⟨rfl, rfl⟩

/-- C6: the matcher returns true exactly when the rule is active and all
three axes pass, each axis passing when its restriction set is empty or a
match is found; a rule tag-restricted to `"wholesale"` never matches a
customer with an empty tag set and does match a customer tagged
`["wholesale", "vip"]`. -/
theorem c6_matcher_characterization :
    (∀ (rule : PricingRule) (ctx : CustomerContext) (line : CartLine),
      ruleMatches rule ctx line = true ↔
        (rule.is_active = true ∧ tagAxisPasses rule ctx ∧
          productAxisPasses rule line ∧ collectionAxisPasses rule line)) ∧
    (∀ (rule : PricingRule) (line : CartLine),
      rule.customer_tags = ["wholesale"] →
        ruleMatches rule { tags := [] } line = false) ∧
    (∀ line : CartLine,
      ruleMatches calibrationRule { tags := ["wholesale", "vip"] } line = true) := by
  refine ⟨?_, ?_, ?_⟩
  · intro rule ctx line
    simp only [ruleMatches, tagAxisPasses, productAxisPasses,
      collectionAxisPasses, Bool.and_eq_true, Bool.or_eq_true,
      decide_eq_true_eq, List.any_eq_true]
    constructor
    · rintro ⟨⟨⟨hact, htag⟩, hprod⟩, hcoll⟩
      refine ⟨hact, ?_, ?_, ?_⟩
      · rcases htag with h | ⟨t, ht, hmem⟩
        · exact Or.inl h
        · exact Or.inr ⟨t, ht, hmem⟩
      · rcases hprod with h | ⟨p, hp, hep⟩
        · exact Or.inl h
        · exact Or.inr (hep ▸ hp)
      · rcases hcoll with h | ⟨c, hc, hmem⟩
        · exact Or.inl h
        · exact Or.inr ⟨c, hc, hmem⟩
    · rintro ⟨hact, htag, hprod, hcoll⟩
      refine ⟨⟨⟨hact, ?_⟩, ?_⟩, ?_⟩
      · rcases htag with h | ⟨t, ht, hmem⟩
        · exact Or.inl h
        · exact Or.inr ⟨t, ht, hmem⟩
      · rcases hprod with h | hmem
        · exact Or.inl h
        · exact Or.inr ⟨_, hmem, rfl⟩
      · rcases hcoll with h | ⟨c, hc, hmem⟩
        · exact Or.inl h
        · exact Or.inr ⟨c, hc, hmem⟩
  · intro rule line h
    simp [ruleMatches, h]
  · intro line
    rfl

/-- Witness for C6: the calibration rule against the empty-tag customer. -/
theorem c6_witness :
    calibrationRule.customer_tags = ["wholesale"] ∧
    ruleMatches calibrationRule { tags := [] } calibrationLine = false :=
  ⟨rfl, c6_matcher_characterization.2.1 calibrationRule calibrationLine rfl⟩

/-- An unrestricted active rule sharing priority 1 with `priorityOneRule`
but with a lexicographically later id. -/
def tieRule : PricingRule :=
  { id := "b-rule", customer_tags := [], product_ids := [],
    collection_ids := [], discount_type := "percentage",
    discount_value := 7, priority := 1, is_active := true }

/-- C9: on a line matched by two rules of priorities 1 and 2, the resolver
under strategy `First` keeps exactly the priority-1 rule, whatever the
input order; on equal priorities the lexicographically smaller id wins. -/
theorem c9_priority_resolution :
    (∀ (a b : PricingRule) (ctx : CustomerContext) (line : CartLine),
      ruleMatches a ctx line = true → ruleMatches b ctx line = true →
      a.priority = 1 → b.priority = 2 →
        effectiveRules [a, b] ctx line = [a] ∧
        effectiveRules [b, a] ctx line = [a] ∧
        (effectiveRules [a, b] ctx line).length = 1) ∧
    (∀ (a b : PricingRule) (ctx : CustomerContext) (line : CartLine),
      ruleMatches a ctx line = true → ruleMatches b ctx line = true →
      a.priority = b.priority → a.id < b.id →
        effectiveRules [b, a] ctx line = [a]) := by
  constructor
  · intro a b ctx line ha hb hpa hpb
    have hab : ruleLE a b = true := by norm_num [ruleLE, hpa, hpb]
    have hba : ruleLE b a = false := by norm_num [ruleLE, hpa, hpb]
    refine ⟨?_, ?_, ?_⟩ <;>
      simp [effectiveRules, List.filter, ha, hb, sortRules, insertRule, hab, hba]
  · intro a b ctx line ha hb hpp hid
    have hnle : ¬ b.id ≤ a.id := not_le.2 hid
    have hba : ruleLE b a = false := by simp [ruleLE, hpp, hnle]
    simp [effectiveRules, List.filter, ha, hb, sortRules, insertRule, hba]

/-- Witness for C9 at the concrete priority-1/priority-2 and tied rules. -/
theorem c9_witness :
    ruleMatches priorityOneRule { tags := [] } qtyOneLine = true ∧
    ruleMatches priorityTwoRule { tags := [] } qtyOneLine = true ∧
    priorityOneRule.priority = 1 ∧ priorityTwoRule.priority = 2 ∧
    effectiveRules [priorityTwoRule, priorityOneRule] { tags := [] } qtyOneLine =
      [priorityOneRule] ∧
    ruleMatches tieRule { tags := [] } qtyOneLine = true ∧
    priorityOneRule.priority = tieRule.priority ∧
    priorityOneRule.id < tieRule.id ∧
    effectiveRules [tieRule, priorityOneRule] { tags := [] } qtyOneLine =
      [priorityOneRule] := by
  refine ⟨rfl, rfl, rfl, rfl, ?_, rfl, rfl, by rw [String.lt_iff_toList_lt]; decide, ?_⟩
  · exact (c9_priority_resolution.1 priorityOneRule priorityTwoRule
      { tags := [] } qtyOneLine rfl rfl rfl rfl).2.1
  · exact c9_priority_resolution.2 priorityOneRule tieRule
      { tags := [] } qtyOneLine rfl rfl rfl (by rw [String.lt_iff_toList_lt]; decide)

/-- C4: on a Percentage rule, a non-negative unit price and a positive
quantity, the calculator returns
`unitPrice * quantity * (discountValue / 100)` clamped into
`[0, unitPrice * quantity]`; discount value 10 on unit price 20 at
quantity 2 gives amount 4. -/
theorem c4_percentage_clamped :
    (∀ (rule : PricingRule) (line : CartLine) (p : ℚ),
      rule.discount_type = "percentage" → 0 ≤ p → 0 < line.quantity →
        computeAmount rule line p =
          Except.ok (max 0
            (min (p * (line.quantity : ℚ) * (rule.discount_value / 100))
              (p * (line.quantity : ℚ))))) ∧
    computeAmount calibrationRule qtyTwoLine 20 = Except.ok 4 := by
  constructor
  · intro rule line p ht hp hq
    have hq0 : (0 : ℚ) ≤ (line.quantity : ℚ) := by exact_mod_cast hq.le
    have htot : (0 : ℚ) ≤ p * (line.quantity : ℚ) := mul_nonneg hp hq0
    have h1 : ¬ (p < 0 ∨ line.quantity < 0) := by
      push_neg
      exact ⟨hp, hq.le⟩
    simp only [computeAmount, ht, if_neg h1, if_true, eq_self_iff_true]
    congr 1
    split_ifs with h2 h3
    · rw [min_eq_left (h2.le.trans htot), max_eq_left h2.le]
    · rw [min_eq_right h3.le, max_eq_right htot]
    · rw [min_eq_left (not_lt.1 h3), max_eq_right (not_lt.1 h2)]
  · norm_num [computeAmount, qtyTwoLine, calibrationRule]

/-- Witness for C4 at the calibration rule, unit price 20, quantity 2. -/
theorem c4_witness :
    calibrationRule.discount_type = "percentage" ∧ (0 : ℚ) ≤ 20 ∧
    0 < qtyTwoLine.quantity ∧
    computeAmount calibrationRule qtyTwoLine 20 =
      Except.ok (max 0
        (min (20 * (qtyTwoLine.quantity : ℚ) * (calibrationRule.discount_value / 100))
          (20 * (qtyTwoLine.quantity : ℚ)))) :=
  ⟨rfl, by norm_num, by decide,
    c4_percentage_clamped.1 calibrationRule qtyTwoLine 20 rfl (by norm_num)
      (by decide)⟩

/-- C5: on a Fixed rule, a non-negative unit price and a positive quantity,
the calculator returns `min (discountValue * quantity) (unitPrice * quantity)`,
so the resulting line price is never negative; discount value 50 on unit
price 10 at quantity 1 is capped at 10. -/
theorem c5_fixed_clamped :
    (∀ (rule : PricingRule) (line : CartLine) (p : ℚ),
      rule.discount_type = "fixed" → 0 ≤ p → 0 < line.quantity →
        computeAmount rule line p =
          Except.ok (min (rule.discount_value * (line.quantity : ℚ))
            (p * (line.quantity : ℚ))) ∧
        ∀ amt, computeAmount rule line p = Except.ok amt →
          0 ≤ p * (line.quantity : ℚ) - amt) ∧
    computeAmount fixedRule50 qtyOneLine 10 = Except.ok 10 := by
  constructor
  · intro rule line p ht hp hq
    have h1 : ¬ (p < 0 ∨ line.quantity < 0) := by
      push_neg
      exact ⟨hp, hq.le⟩
    have hpct : ¬ (("fixed" : String) = "percentage") := by decide
    have heq : computeAmount rule line p =
        Except.ok (min (rule.discount_value * (line.quantity : ℚ))
          (p * (line.quantity : ℚ))) := by
      simp only [computeAmount, ht, if_neg h1, if_neg hpct, if_true,
        eq_self_iff_true]
    refine ⟨heq, ?_⟩
    intro amt hamt
    rw [heq] at hamt
    have : amt = min (rule.discount_value * (line.quantity : ℚ))
        (p * (line.quantity : ℚ)) := by
      injection hamt.symm
    rw [this]
    exact sub_nonneg.2 (min_le_right _ _)
  · norm_num [computeAmount, qtyOneLine, fixedRule50]
    decide

/-- Witness for C5 at the fixed-50 rule, unit price 10, quantity 1. -/
theorem c5_witness :
    fixedRule50.discount_type = "fixed" ∧ (0 : ℚ) ≤ 10 ∧
    0 < qtyOneLine.quantity ∧
    computeAmount fixedRule50 qtyOneLine 10 =
      Except.ok (min (fixedRule50.discount_value * (qtyOneLine.quantity : ℚ))
        (10 * (qtyOneLine.quantity : ℚ))) :=
  ⟨rfl, by norm_num, by decide,
    (c5_fixed_clamped.1 fixedRule50 qtyOneLine 10 rfl (by norm_num)
      (by decide)).1⟩

/-- C7 counterexample: the configuration whose single rule carries the
unrecognized `discountType` literal `"bogus"` and the negative
`discountValue` -5 decodes successfully — no domain validation happens. -/
theorem c7_counterexample :
    Configuration.deserialize (cfgJsonWith "bogus" (-5)) =
      Except.ok { pricing_rules := [ruleValueWith "bogus" (-5)] } :=
  rfl

/-- C7 (amended): decoding accepts any `discountType` string and any
numeric `discountValue` — negative values and values above 100 for
percentage rules included — failing only on missing or ill-typed fields. -/
theorem c7_decode_no_domain_validation :
    ∀ (s : String) (v : ℚ),
      Configuration.deserialize (cfgJsonWith s v) =
        Except.ok { pricing_rules := [ruleValueWith s v] } :=
  fun _ _ => rfl

/-- Witness for C7: the amended statement instantiated at the literal
`"bogus2"` and the over-range percentage value 150. -/
theorem c7_witness :
    Configuration.deserialize (cfgJsonWith "bogus2" 150) =
      Except.ok { pricing_rules := [ruleValueWith "bogus2" 150] } :=
  c7_decode_no_domain_validation "bogus2" 150

/-- A bind over `Except` is not `ok` when no continuation result is. -/
theorem bind_isOk_false {α β : Type} (x : Except String α)
    (f : α → Except String β) (hf : ∀ a, (f a).isOk = false) :
    (x.bind f).isOk = false := by
  cases x with
  | error e => rfl
  | ok a => exact hf a

/-- C8 counterexample: the serialized rule carrying every field except
`isActive` fails to decode — the field is required, no default applies. -/
theorem c8_counterexample :
    (PricingRule.deserialize (Json.obj ruleFieldsNoActive)).isOk = false :=
  rfl

/-- C8 (amended): for every serialized rule object in which the `isActive`
key is absent, decoding fails; the derive treats the field as required and
substitutes no default. -/
theorem c8_missing_is_active_fails (fs : List (String × Json))
    (h : lookupField fs "isActive" = none) :
    (PricingRule.deserialize (Json.obj fs)).isOk = false := by
  simp only [PricingRule.deserialize]
  apply bind_isOk_false
  intro i
  apply bind_isOk_false
  intro tags
  apply bind_isOk_false
  intro prods
  apply bind_isOk_false
  intro colls
  apply bind_isOk_false
  intro dt
  apply bind_isOk_false
  intro dv
  apply bind_isOk_false
  intro pr
  have hb : getBool fs "isActive" = Except.error ("missing field " ++ "isActive") := by
    simp [getBool, getField, h, Except.bind]
  rw [hb]
  rfl

/-- Witness for C8 at the fixture rule object lacking `isActive`. -/
theorem c8_witness :
    lookupField ruleFieldsNoActive "isActive" = none ∧
    (PricingRule.deserialize (Json.obj ruleFieldsNoActive)).isOk = false :=
  ⟨rfl, c8_missing_is_active_fails ruleFieldsNoActive rfl⟩

end B2B
